import Mathlib

/-!
Verification of the alertmanager-webhook-rocketchat relay.

The Go source (`main.go`) is shallowly embedded below.  External
collaborators reached over HTTP (the RocketChat client) and external
libraries (the JSON decoder, the YAML parser, the file system) are
modelled as oracle parameters: functions supplied to the embedded code
that may succeed or fail arbitrarily, matching the interface the source
uses.  Pieces of the repository that are not among the provided source
files (the `Config` type, `AuthenticateRocketChatClient`,
`SendNotification`, `GetRocketChatClient`, and the retry controller
described by the design document) are modelled from the design document
and marked as such in their doc comments.
-/

/-- Modelled from the spec: the credential part of `Config`
(id, email, password); the `Config` type itself is defined in a source
file of the repository that is not among the provided ones. -/
structure Credentials where
  id : String
  email : String
  password : String
deriving DecidableEq, Repr

/-- Modelled from the spec: the endpoint part of `Config` (host, scheme). -/
structure Endpoint where
  host : String
  scheme : String
deriving DecidableEq, Repr

/-- Modelled from the spec: the startup configuration, a credential triple
plus an endpoint, loaded once at startup (`var config Config` in main.go). -/
structure Config where
  endpoint : Endpoint
  credentials : Credentials
deriving DecidableEq, Repr

/-- One alert of the alertmanager `template.Data` payload (external
library type `github.com/prometheus/alertmanager/template`): a status
string plus label and annotation key-value sets. -/
structure Alert where
  status : String
  labels : List (String × String)
  annotationSet : List (String × String)
deriving DecidableEq, Repr

/-- The alertmanager `template.Data` payload decoded from the request
body (external library type): a list of alerts plus group-level labels
and common annotation key-value sets. -/
structure Data where
  alerts : List Alert
  groupLabels : List (String × String)
  commonAnnotationSet : List (String × String)
deriving DecidableEq, Repr

/-- Webhook http response (struct `JSONResponse` of main.go). -/
structure JSONResponse where
  Status : Nat
  Message : String
deriving DecidableEq, Repr

/-- A hexadecimal digit, used by the model of Go JSON string escaping. -/
def hexDigit (n : Nat) : String :=
  if n = 0 then "0" else if n = 1 then "1" else if n = 2 then "2"
  else if n = 3 then "3" else if n = 4 then "4" else if n = 5 then "5"
  else if n = 6 then "6" else if n = 7 then "7" else if n = 8 then "8"
  else if n = 9 then "9" else if n = 10 then "a" else if n = 11 then "b"
  else if n = 12 then "c" else if n = 13 then "d" else if n = 14 then "e"
  else "f"

/-- Escaping of one character in a JSON string, as Go `encoding/json`
does with its default HTML escaping (quotes, backslash, control
characters, and the HTML-sensitive characters). -/
def goJSONEscapeChar (c : Char) : String :=
  if c = '"' then "\\\""
  else if c = '\\' then "\\\\"
  else if c = '\n' then "\\n"
  else if c = '\r' then "\\r"
  else if c = '\t' then "\\t"
  else if c = '<' then "\\u003c"
  else if c = '>' then "\\u003e"
  else if c = '&' then "\\u0026"
  else if c.toNat < 0x20 then "\\u00" ++ hexDigit (c.toNat / 16) ++ hexDigit (c.toNat % 16)
  else if c.toNat = 0x2028 then "\\u2028"
  else if c.toNat = 0x2029 then "\\u2029"
  else String.singleton c

/-- Escaping of a whole JSON string, character by character. -/
def goJSONEscape (s : String) : String :=
  String.join (s.data.map goJSONEscapeChar)

/-- Go `json.Marshal` applied to a `JSONResponse` value: both fields are
exported and untagged, so the object uses the field names verbatim.
Marshalling an int-and-string struct cannot fail in Go, so the model is
total (the error branch of `sendJSONResponse` is dead code). -/
def jsonMarshal (r : JSONResponse) : String :=
  "\x7b\"Status\":" ++ toString r.Status ++ ",\"Message\":\"" ++ goJSONEscape r.Message ++ "\"\x7d"

/-- What `sendJSONResponse` writes to the `http.ResponseWriter`: the
header status and the marshalled body; `payload` records the
`JSONResponse` value that was marshalled into the body. -/
structure WrittenResponse where
  httpStatus : Nat
  body : String
  payload : JSONResponse
deriving DecidableEq, Repr

/-- Function `sendJSONResponse` of main.go: builds a `JSONResponse` from
the status and message, writes the status as the HTTP header status and
the JSON marshalling of the struct as the body. -/
def sendJSONResponse (status : Nat) (message : String) : WrittenResponse :=
  let data : JSONResponse := { Status := status, Message := message }
  { httpStatus := status, body := jsonMarshal data, payload := data }

/-- The inbound HTTP request, carrying the verdict of the external JSON
decoder on its body: `Except.ok` with the decoded `template.Data` when
`json.Decode` succeeds, `Except.error` with the error text otherwise. -/
structure HttpRequest where
  decoded : Except String Data
deriving Repr

/-- Function `readRequestBody` of main.go: decodes the request body into
a `template.Data` and returns the data together with the decoder's
error.  The decoder itself is the external `encoding/json` library, so
its verdict is the oracle carried by the request. -/
def readRequestBody (r : HttpRequest) : Except String Data :=
  r.decoded

/-- The chat client's session token (the mutable state inside
`rocketChatClient`), refreshed on authentication. -/
def Session := String
deriving instance DecidableEq, Repr for Session

/-- The package-level mutable state of main.go shared across requests:
`config` (read-only after startup) and the `rocketChatClient` session. -/
structure ServerState where
  config : Config
  session : Session
deriving DecidableEq, Repr

/-- Modelled from the spec: `AuthenticateRocketChatClient` is in a source
file of the repository that is not among the provided ones; per the spec
its contract is `authenticate(config) -> (session, error)`, replacing the
session token on success.  A behaviour of it is any function of this
shape; `Except.error` carries the authentication failure reason. -/
def AuthBehavior := Config → Session → Except String Session

/-- Modelled from the spec: the outcome of `SendNotification` (in a
source file of the repository that is not among the provided ones):
`none` when the send succeeds, `some msg` when it fails.  main.go
discards this outcome. -/
def SendOutcome := Option String
deriving instance Repr for SendOutcome

/-- An observable call the webhook handler makes on the chat client. -/
inductive Event
  | authenticate
  | send
deriving DecidableEq, Repr

/-- Everything a webhook invocation produces: the package state
afterwards, the chat-client calls it made in order, and the response it
wrote. -/
structure WebhookResult where
  state : ServerState
  events : List Event
  response : WrittenResponse
deriving Repr

/-- Function `webhook` of main.go.  It reads and decodes the body; on
decode error it responds 400 with the error text and returns.  Otherwise
it calls `AuthenticateRocketChatClient`; on authentication error it only
logs and skips the send, otherwise it calls `SendNotification` (whose
outcome is discarded).  In either case it then responds 200 "Success". -/
def webhook (auth : AuthBehavior) (_sendOutcome : SendOutcome) (s : ServerState)
    (r : HttpRequest) : WebhookResult :=
  match readRequestBody r with
  | .error err =>
      { state := s, events := [], response := sendJSONResponse 400 err }
  | .ok _data =>
      match auth s.config s.session with
      | .error _errAuthentication =>
          -- the error is only logged ("No notification was sent")
          { state := s, events := [Event.authenticate],
            response := sendJSONResponse 200 "Success" }
      | .ok sess2 =>
          -- Format notifications and send it; the outcome is discarded
          { state := { s with session := sess2 },
            events := [Event.authenticate, Event.send],
            response := sendJSONResponse 200 "Success" }

/-- Modelled from the spec: the outcome of the generic bounded-retry
primitive of the design document (not among the provided source files):
either success, or a composite error identifying the retry count and the
last underlying error after the budget is spent. -/
inductive RetryResult
  | success
  | retryExhausted (retryCount : Nat) (lastError : String)
deriving DecidableEq, Repr

/-- Modelled from the spec: the attempt loop of the generic bounded-retry
primitive.  `op` maps the invocation index (0-based) to `none` on
success or `some err` on failure; `R` is the full retry budget (kept for
the exhaustion report); `idx` is the index of the current invocation and
`left` the number of retries still available.  Returns the outcome and
the number of invocations performed.  The inter-attempt delay `D` only
suspends and has no observable effect in this model. -/
def retryGo (op : Nat → Option String) (R : Nat) : Nat → Nat → RetryResult × Nat
  | idx, left =>
    match op idx, left with
    | none, _ => (.success, 1)
    | some e, 0 => (.retryExhausted R e, 1)
    | some _, n + 1 =>
        let r := retryGo op R (idx + 1) n
        (r.1, r.2 + 1)

/-- Modelled from the spec: the generic bounded-retry primitive with
retry budget `R`: run the operation once; if it fails and attempts
remain, wait and retry; total attempts at most `R + 1`. -/
def retry (R : Nat) (op : Nat → Option String) : RetryResult × Nat :=
  retryGo op R 0 R

/-- An operation that fails deterministically on its first `N`
invocations with error `err` and then succeeds, used to state the
retry-controller property. -/
def failsNTimes (N : Nat) (err : String) : Nat → Option String :=
  fun k => if k < N then some err else none

/-- An observable call the specialized send-with-retry flow makes on the
chat client. -/
inductive SREvent
  | send
  | reauthenticate
deriving DecidableEq, Repr

/-- Modelled from the spec: the error reported by the send-with-retry
specialization: an authentication failure is prioritized as the
externally visible cause; otherwise the exhaustion error wraps the retry
count and the last send error. -/
inductive SendRetryError
  | authenticationError (msg : String)
  | retryExhausted (retryCount : Nat) (lastSendError : String)
deriving DecidableEq, Repr

/-- Modelled from the spec: fold the latest authentication failure (if
any) into the final reported error, prioritizing it over the send
failure. -/
def foldError (R : Nat) : Option String → String → SendRetryError
  | some authErr, _ => .authenticationError authErr
  | none, sendErr => .retryExhausted R sendErr

/-- Modelled from the spec: the attempt loop of the send-with-retry
specialization (not among the provided source files).  `sendOp` and
`authOp` map the attempt index to `none` on success or `some err` on
failure.  Each failed send attempt that still has retries remaining is
followed by a re-authentication of the chat client session before the
next send attempt; an authentication failure is remembered and folded
into the reported error but does not stop the retrying.  Returns the
final error (`none` on success) and the ordered trace of chat-client
calls. -/
def sendWithRetryGo (sendOp authOp : Nat → Option String) (R : Nat) :
    Nat → Nat → Option String → Option SendRetryError × List SREvent
  | idx, left, lastAuthErr =>
    match sendOp idx, left with
    | none, _ => (none, [.send])
    | some sendErr, 0 => (some (foldError R lastAuthErr sendErr), [.send])
    | some _, n + 1 =>
        let lastAuthErr2 :=
          match authOp idx with
          | some e => some e
          | none => lastAuthErr
        let r := sendWithRetryGo sendOp authOp R (idx + 1) n lastAuthErr2
        (r.1, .send :: .reauthenticate :: r.2)

/-- Modelled from the spec: the send-with-retry flow with retry budget
`R`: the retry primitive specialized so that the operation is "send
notification" and every failure with retries remaining triggers a
re-authentication before the next attempt. -/
def sendWithRetry (sendOp authOp : Nat → Option String) (R : Nat) :
    Option SendRetryError × List SREvent :=
  sendWithRetryGo sendOp authOp R 0 R none

/-- The alternating trace `send, reauthenticate, send, …, send` with
`n + 1` sends and `n` re-authentications. -/
def altTrace : Nat → List SREvent
  | 0 => [.send]
  | n + 1 => .send :: .reauthenticate :: altTrace n

/-- The outcome of process startup: either a fatal log (`log.Fatalf`,
the process exits before serving) or serving requests from a given
initial package state. -/
inductive StartupOutcome
  | fatal (msg : String)
  | serving (s : ServerState)
deriving DecidableEq, Repr

/-- Function `loadConfig` of main.go.  `readFile` is the verdict of the
external `ioutil.ReadFile` call on the config file and `yamlUnmarshal`
the verdict of the external `yaml.Unmarshal` on its contents; a failure
of either is `log.Fatalf`, modelled as `Except.error`.  No field of the
parsed configuration is validated. -/
def loadConfig (readFile : Except String String)
    (yamlUnmarshal : String → Except String Config) : Except String Config :=
  match readFile with
  | .error e => .error e
  | .ok configData =>
      match yamlUnmarshal configData with
      | .error errYAML => .error errYAML
      | .ok config => .ok config

/-- Modelled from the spec: a behaviour of `GetRocketChatClient` (in a
source file of the repository that is not among the provided ones): the
chat client is constructed from the configuration, yielding an initial
session or an error (which main.go makes fatal). -/
def GetClientBehavior := Config → Except String Session

/-- Function `main` of main.go after flag parsing: load the
configuration (fatal on failure), construct the RocketChat client (fatal
on failure), attempt an initial authentication (an error here is only
logged), then start serving. -/
def mainStartup (readFile : Except String String)
    (yamlUnmarshal : String → Except String Config)
    (getRocketChatClient : GetClientBehavior) (auth : AuthBehavior) :
    StartupOutcome :=
  match loadConfig readFile yamlUnmarshal with
  | .error e => .fatal e
  | .ok config =>
      match getRocketChatClient config with
      | .error errClient => .fatal errClient
      | .ok rocketChatClient =>
          match auth config rocketChatClient with
          | .error _errAuthentication =>
              -- the error is only logged; serving starts anyway
              .serving { config := config, session := rocketChatClient }
          | .ok sess2 => .serving { config := config, session := sess2 }

/-- Modelled from the spec: a required startup field is missing when it
is the empty string, the Go zero value that `yaml.Unmarshal` leaves in a
field absent from the file. -/
def Config.missingRequiredField (c : Config) : Bool :=
  c.credentials.id == "" || c.credentials.email == "" ||
    c.credentials.password == "" || c.endpoint.host == "" ||
    c.endpoint.scheme == ""

/-- A concrete configuration whose credential email is missing but whose
endpoint is fully specified. -/
def cfgMissingEmail : Config :=
  { endpoint := { host := "chat.example.com", scheme := "https" },
    credentials := { id := "bot-1", email := "", password := "hunter2" } }

/-- A concrete alert payload with one firing alert, as in the spec's
success scenario. -/
def dataOneAlert : Data :=
  { alerts := [{ status := "firing", labels := [("alertname", "X")],
                 annotationSet := [] }],
    groupLabels := [], commonAnnotationSet := [] }

/-- A concrete payload with an empty alerts list, as decoded from the
JSON body `\x7b\x7d`. -/
def dataEmpty : Data :=
  { alerts := [], groupLabels := [], commonAnnotationSet := [] }

/-- A concrete package state for counterexamples and witnesses. -/
def stateEx : ServerState :=
  { config := cfgMissingEmail, session := ("tok0" : String) }

/-- An authentication behaviour that always fails with a fixed reason. -/
def authAlwaysFails : AuthBehavior :=
  fun _ _ => .error "invalid credentials"

/-- An authentication behaviour that always succeeds with a fresh
token. -/
def authAlwaysOk : AuthBehavior :=
  fun _ _ => .ok ("tok1" : String)

/-- C2: a request whose body fails to decode is answered with HTTP 400,
the decode error text as the response message, no chat-client call at
all, and no change to the package state. -/
theorem webhook_decode_failure_400_no_calls
    (auth : AuthBehavior) (sendOutcome : SendOutcome) (s : ServerState)
    (err : String) :
    (webhook auth sendOutcome s { decoded := .error err }).events = [] ∧
    (webhook auth sendOutcome s { decoded := .error err }).response.httpStatus = 400 ∧
    (webhook auth sendOutcome s { decoded := .error err }).response.payload =
      { Status := 400, Message := err } ∧
    (webhook auth sendOutcome s { decoded := .error err }).state = s :=
  ⟨rfl, rfl, rfl, rfl⟩

/-- C3: a request whose body decodes successfully and whose
authentication and send both succeed is answered with HTTP 200 and the
fixed body containing Status 200 and Message Success. -/
theorem webhook_success_200_fixed_body
    (auth : AuthBehavior) (s : ServerState) (d : Data) (sess2 : Session)
    (hauth : auth s.config s.session = .ok sess2) :
    (webhook auth (none : SendOutcome) s { decoded := .ok d }).response.httpStatus = 200 ∧
    (webhook auth (none : SendOutcome) s { decoded := .ok d }).response.body =
      "\x7b\"Status\":200,\"Message\":\"Success\"\x7d" := by
  refine ⟨?_, ?_⟩
  · simp [webhook, readRequestBody, hauth, sendJSONResponse]
  · simp only [webhook, readRequestBody, hauth, sendJSONResponse]
    rfl

/-- Witness for C3 at a concrete one-alert payload and an
always-succeeding authentication behaviour. -/
theorem webhook_success_200_fixed_body_witness :
    (webhook authAlwaysOk (none : SendOutcome) stateEx { decoded := .ok dataOneAlert }).response.httpStatus = 200 ∧
    (webhook authAlwaysOk (none : SendOutcome) stateEx { decoded := .ok dataOneAlert }).response.body =
      "\x7b\"Status\":200,\"Message\":\"Success\"\x7d" :=
  webhook_success_200_fixed_body authAlwaysOk stateEx dataOneAlert ("tok1" : String) rfl

/-- C4: on a successfully decoded body the handler authenticates exactly
once, before any send; the send happens exactly when authentication
succeeded; and in both cases the response is HTTP 200 with message
Success. -/
theorem webhook_auth_once_send_iff_auth_ok
    (auth : AuthBehavior) (sendOutcome : SendOutcome) (s : ServerState)
    (d : Data) :
    (webhook auth sendOutcome s { decoded := .ok d }).events.count Event.authenticate = 1 ∧
    (webhook auth sendOutcome s { decoded := .ok d }).events.head? = some Event.authenticate ∧
    (Event.send ∈ (webhook auth sendOutcome s { decoded := .ok d }).events ↔
      ∃ sess2, auth s.config s.session = .ok sess2) ∧
    (webhook auth sendOutcome s { decoded := .ok d }).response.httpStatus = 200 ∧
    (webhook auth sendOutcome s { decoded := .ok d }).response.payload.Message = "Success" := by
  cases hauth : auth s.config s.session with
  | error e => simp [webhook, readRequestBody, hauth, sendJSONResponse]
  | ok sess2 => simp [webhook, readRequestBody, hauth, sendJSONResponse]

/-- C7: the HTTP status written by `sendJSONResponse` always equals the
Status field of the JSON payload serialized into the body, and every
response the webhook handler produces goes through it. -/
theorem sendJSONResponse_status_mirrors_body
    (status : Nat) (message : String) (auth : AuthBehavior)
    (sendOutcome : SendOutcome) (s : ServerState) (r : HttpRequest) :
    (sendJSONResponse status message).httpStatus =
      (sendJSONResponse status message).payload.Status ∧
    (sendJSONResponse status message).body =
      jsonMarshal (sendJSONResponse status message).payload ∧
    (webhook auth sendOutcome s r).response.httpStatus =
      (webhook auth sendOutcome s r).response.payload.Status := by
  refine ⟨rfl, rfl, ?_⟩
  obtain ⟨body⟩ := r
  cases body with
  | error e => rfl
  | ok d =>
      cases hauth : auth s.config s.session with
      | error e => simp [webhook, readRequestBody, hauth, sendJSONResponse]
      | ok sess2 => simp [webhook, readRequestBody, hauth, sendJSONResponse]

/-- C9: handling any webhook request leaves the startup configuration
unchanged, whether it ends in decode failure, authentication failure, or
success. -/
theorem webhook_preserves_config
    (auth : AuthBehavior) (sendOutcome : SendOutcome) (s : ServerState)
    (r : HttpRequest) :
    (webhook auth sendOutcome s r).state.config = s.config := by
  obtain ⟨body⟩ := r
  cases body with
  | error e => rfl
  | ok d =>
      cases hauth : auth s.config s.session with
      | error e => simp [webhook, readRequestBody, hauth]
      | ok sess2 => simp [webhook, readRequestBody, hauth]

/-- C10: every successfully decoded payload, the empty-alerts payload
included, is accepted and taken to the authenticate/send path: the first
chat-client call is the authentication, and the response is 200, never
the 400 reserved for decode failures.  No check of the alerts collection
stands in the way. -/
theorem webhook_decoded_body_always_proceeds
    (auth : AuthBehavior) (sendOutcome : SendOutcome) (s : ServerState)
    (d : Data) :
    (webhook auth sendOutcome s { decoded := .ok d }).events.head? = some Event.authenticate ∧
    (webhook auth sendOutcome s { decoded := .ok d }).response.httpStatus = 200 ∧
    (webhook auth sendOutcome s { decoded := .ok dataEmpty }).events.head? = some Event.authenticate := by
  refine ⟨?_, ?_, ?_⟩
  · cases hauth : auth s.config s.session with
    | error e => simp [webhook, readRequestBody, hauth]
    | ok sess2 => simp [webhook, readRequestBody, hauth]
  · cases hauth : auth s.config s.session with
    | error e => simp [webhook, readRequestBody, hauth, sendJSONResponse]
    | ok sess2 => simp [webhook, readRequestBody, hauth, sendJSONResponse]
  · cases hauth : auth s.config s.session with
    | error e => simp [webhook, readRequestBody, hauth]
    | ok sess2 => simp [webhook, readRequestBody, hauth]

/-- Counterexample to C1: a concrete request whose body decodes, whose
authentication fails (so no send can succeed) and whose send outcome is
a failure is answered with HTTP 200 and message Success — not 401, and
without the authentication failure reason. -/
theorem webhook_auth_and_send_failure_not_401 :
    (webhook authAlwaysFails (some "send failed" : SendOutcome) stateEx
      { decoded := .ok dataOneAlert }).response.httpStatus = 200 ∧
    (webhook authAlwaysFails (some "send failed" : SendOutcome) stateEx
      { decoded := .ok dataOneAlert }).response.httpStatus ≠ 401 ∧
    (webhook authAlwaysFails (some "send failed" : SendOutcome) stateEx
      { decoded := .ok dataOneAlert }).response.payload.Message = "Success" := by
  refine ⟨rfl, by decide, rfl⟩

/-- C1 amended: when the body decodes but authentication fails, the
handler skips the send and still answers HTTP 200 with payload Status
200 and Message Success; the authentication failure reason never reaches
the response (it is only logged). -/
theorem webhook_auth_failure_responds_200_success
    (auth : AuthBehavior) (sendOutcome : SendOutcome) (s : ServerState)
    (d : Data) (msg : String)
    (hauth : auth s.config s.session = .error msg) :
    (webhook auth sendOutcome s { decoded := .ok d }).response.httpStatus = 200 ∧
    (webhook auth sendOutcome s { decoded := .ok d }).response.payload =
      { Status := 200, Message := "Success" } ∧
    (webhook auth sendOutcome s { decoded := .ok d }).events = [Event.authenticate] := by
  refine ⟨?_, ?_, ?_⟩ <;> simp [webhook, readRequestBody, hauth, sendJSONResponse]

/-- Witness for the amended C1 at a concrete failing authentication. -/
theorem webhook_auth_failure_responds_200_success_witness :
    (webhook authAlwaysFails (none : SendOutcome) stateEx { decoded := .ok dataEmpty }).response.httpStatus = 200 ∧
    (webhook authAlwaysFails (none : SendOutcome) stateEx { decoded := .ok dataEmpty }).response.payload =
      { Status := 200, Message := "Success" } ∧
    (webhook authAlwaysFails (none : SendOutcome) stateEx { decoded := .ok dataEmpty }).events = [Event.authenticate] :=
  webhook_auth_failure_responds_200_success authAlwaysFails (none : SendOutcome)
    stateEx dataEmpty "invalid credentials" rfl

/-- Shape of one run of the retry attempt loop against an operation that
fails on its first `N` invocations: starting at invocation index `idx`
with `left` retries remaining, it succeeds after `N - idx + 1`
invocations when the remaining failures fit in the budget, and otherwise
exhausts the budget after `left + 1` invocations. -/
theorem retryGo_failsNTimes (N : Nat) (err : String) (R : Nat) :
    ∀ (left idx : Nat), retryGo (failsNTimes N err) R idx left =
      if N - idx ≤ left then (RetryResult.success, N - idx + 1)
      else (RetryResult.retryExhausted R err, left + 1) := by
  intro left
  induction left with
  | zero =>
      intro idx
      rcases Nat.lt_or_ge idx N with h | h
      · have h1 : failsNTimes N err idx = some err := by
          simp [failsNTimes, h]
        have h2 : ¬ N - idx ≤ 0 := by omega
        simp [retryGo, h1, h2]
      · have h1 : failsNTimes N err idx = none := by
          simp only [failsNTimes]
          rw [if_neg (by omega : ¬ idx < N)]
        have h2 : N - idx ≤ 0 := by omega
        have h3 : N - idx = 0 := by omega
        simp [retryGo, h1, h2, h3]
  | succ n ih =>
      intro idx
      rcases Nat.lt_or_ge idx N with h | h
      · have h1 : failsNTimes N err idx = some err := by
          simp [failsNTimes, h]
        by_cases h3 : N - idx ≤ n + 1
        · have h4 : N - (idx + 1) ≤ n := by omega
          simp [retryGo, h1, ih (idx + 1), h4, h3, Prod.ext_iff]
          omega
        · have h4 : ¬ N - (idx + 1) ≤ n := by omega
          simp [retryGo, h1, ih (idx + 1), h4, h3]
      · have h1 : failsNTimes N err idx = none := by
          simp only [failsNTimes]
          rw [if_neg (by omega : ¬ idx < N)]
        have h2 : N - idx ≤ n + 1 := by omega
        have h3 : N - idx = 0 := by omega
        simp [retryGo, h1, h2, h3]

/-- C5: with retry budget `R`, running the retry controller on an
operation failing deterministically on its first `N` invocations returns
success after exactly `N + 1` invocations when `N ≤ R`, and a
retry-exhausted error after exactly `R + 1` invocations when `R < N`. -/
theorem retry_failsNTimes_invocations (N R : Nat) (err : String) :
    retry R (failsNTimes N err) =
      if N ≤ R then (RetryResult.success, N + 1)
      else (RetryResult.retryExhausted R err, R + 1) := by
  have h := retryGo_failsNTimes N err R R 0
  simpa [retry] using h

/-- Shape of the send-with-retry attempt loop when every send fails: the
trace of chat-client calls it emits from any start index and remembered
authentication error is the alternating trace of its remaining budget,
whatever the authentication behaviour. -/
theorem sendWithRetryGo_all_fail_trace (sendErrF : Nat → String)
    (authOp : Nat → Option String) (R : Nat) :
    ∀ (left idx : Nat) (lastAuthErr : Option String),
      (sendWithRetryGo (fun i => some (sendErrF i)) authOp R idx left lastAuthErr).2 =
        altTrace left := by
  intro left
  induction left with
  | zero =>
      intro idx lastAuthErr
      simp [sendWithRetryGo, altTrace]
  | succ n ih =>
      intro idx lastAuthErr
      simp [sendWithRetryGo, altTrace, ih]

/-- The alternating trace holds `n + 1` sends. -/
theorem altTrace_count_send (n : Nat) :
    (altTrace n).count SREvent.send = n + 1 := by
  induction n with
  | zero => rfl
  | succ n ih => simp [altTrace, List.count_cons, ih]

/-- The alternating trace holds `n` re-authentications. -/
theorem altTrace_count_reauthenticate (n : Nat) :
    (altTrace n).count SREvent.reauthenticate = n := by
  induction n with
  | zero => rfl
  | succ n ih => simp [altTrace, List.count_cons, ih]

/-- C6: in the send-with-retry flow with budget `R`, when every send
attempt fails, the chat-client calls form the alternating trace send,
reauthenticate, send, …, send — every failed send with retries remaining
is followed by a re-authentication before the next send — for a total of
exactly `R + 1` sends and exactly `R` authentications, whatever the
authentication outcomes. -/
theorem sendWithRetry_all_fail_alternates (R : Nat) (sendErrF : Nat → String)
    (authOp : Nat → Option String) :
    (sendWithRetry (fun i => some (sendErrF i)) authOp R).2 = altTrace R ∧
    (sendWithRetry (fun i => some (sendErrF i)) authOp R).2.count SREvent.send = R + 1 ∧
    (sendWithRetry (fun i => some (sendErrF i)) authOp R).2.count SREvent.reauthenticate = R := by
  have h : (sendWithRetry (fun i => some (sendErrF i)) authOp R).2 = altTrace R :=
    sendWithRetryGo_all_fail_trace sendErrF authOp R R 0 none
  exact ⟨h, by rw [h, altTrace_count_send], by rw [h, altTrace_count_reauthenticate]⟩

/-- Counterexample to C8: a concrete startup whose parsed configuration
is missing a required credential field (the email) is not fatal: the
client construction and the only other fatal paths succeed, the failing
initial authentication is merely logged, and the process reaches the
serving state. -/
theorem mainStartup_missing_field_still_serves :
    cfgMissingEmail.missingRequiredField = true ∧
    mainStartup (.ok "\x7b\x7d") (fun _ => .ok cfgMissingEmail)
        (fun _ => .ok ("" : Session)) authAlwaysFails =
      .serving { config := cfgMissingEmail, session := ("" : Session) } :=
  ⟨rfl, rfl⟩

/-- C8 amended: startup is fatal exactly on the config-read, YAML-parse
and client-construction failures; whenever the configuration loads and
the client is constructed — no field of the configuration being
validated anywhere — the process reaches the serving state with that
configuration, a failure of the initial authentication included. -/
theorem mainStartup_serves_when_load_and_client_ok
    (readFile : Except String String)
    (yamlUnmarshal : String → Except String Config)
    (getClient : GetClientBehavior) (auth : AuthBehavior)
    (config : Config) (sess : Session)
    (hload : loadConfig readFile yamlUnmarshal = .ok config)
    (hclient : getClient config = .ok sess) :
    ∃ s : ServerState, mainStartup readFile yamlUnmarshal getClient auth =
      .serving s ∧ s.config = config := by
  cases hauth : auth config sess with
  | error e =>
      refine ⟨{ config := config, session := sess }, ?_, rfl⟩
      simp [mainStartup, hload, hclient, hauth]
  | ok sess2 =>
      refine ⟨{ config := config, session := sess2 }, ?_, rfl⟩
      simp [mainStartup, hload, hclient, hauth]

/-- Witness for the amended C8 at a concrete configuration with a
missing email field. -/
theorem mainStartup_serves_when_load_and_client_ok_witness :
    ∃ s : ServerState,
      mainStartup (.ok "\x7b\x7d") (fun _ => .ok cfgMissingEmail)
          (fun _ => .ok ("" : Session)) authAlwaysOk =
        .serving s ∧ s.config = cfgMissingEmail :=
  mainStartup_serves_when_load_and_client_ok (.ok "\x7b\x7d")
    (fun _ => .ok cfgMissingEmail) (fun _ => .ok ("" : Session)) authAlwaysOk
    cfgMissingEmail ("" : Session) rfl rfl
